import Mathlib

/-!
Verification development for the candidatory election-news pipeline
(`src/main.py`).  The Python source is shallowly embedded: pure text
processing (normalization, keyword matching, scoring, fingerprinting,
fuzzy dedup) is translated into executable Lean functions; the stateful
phase-3 triage loop becomes an explicit state-passing step function; the
network-facing publisher and feed fetcher become step functions over an
explicit outcome environment (each network call's result is an input).
Machine integers are `Nat`/`Int`; 32-bit SHA-256 arithmetic is `Nat`
with explicit `% 2^32`.  Configuration constants are fixed at the
defaults hard-coded in `_env_int`/`_env_float` calls of the source.
-/

set_option maxRecDepth 10000

namespace Candidatory

/-! ## Text normalization (src/main.py `_pre_normalize`, lines 126-138)

Python-specific character classes are modelled as follows: `str.lower`
is per-character ASCII lowercasing (Persian/Arabic letters have no
case); the regex class `\w` is modelled by ASCII alphanumerics and
underscore (non-ASCII word characters of interest all lie in the
Arabic block U+0600-U+06FF, which the source regex keeps separately);
`\s` is modelled by `Char.isWhitespace`. -/

/-- Character-for-character version of the chained `str.replace` calls
mapping Arabic letterforms to Persian equivalents (all sources and
targets are single characters, and no target is itself a source). -/
def arabicToPersianChar (c : Char) : Char :=
  if c = 'ي' then 'ی'
  else if c = 'ك' then 'ک'
  else if c = 'ة' then 'ه'
  else if c = 'ؤ' then 'و'
  else if c = 'إ' then 'ا'
  else if c = 'أ' then 'ا'
  else if c = 'ئ' then 'ی'
  else if c = 'ى' then 'ی'
  else c

/-- Arabic diacritics removed by the source regex `[ً-ٰٟ]`. -/
def isArabicDiacritic (c : Char) : Bool :=
  (1611 ≤ c.toNat && c.toNat ≤ 1631) || c.toNat = 1648

/-- Zero-width / directionality marks removed by the source regex
`[‌‍‎‏﻿]`. -/
def isZeroWidthMark (c : Char) : Bool :=
  c.toNat = 8204 || c.toNat = 8205 || c.toNat = 8206 ||
  c.toNat = 8207 || c.toNat = 65279

/-- ASCII word character (model of the regex class `\w`). -/
def isWordCharAscii (c : Char) : Bool :=
  c.isAlpha || c.isDigit || c = '_'

/-- Character of the Arabic block `؀-ۿ` kept by the source regex. -/
def isArabicBlock (c : Char) : Bool :=
  1536 ≤ c.toNat && c.toNat ≤ 1791

/-- Helper for Python `str.split()`: split a character list on whitespace
runs, dropping empty pieces.  The second argument accumulates the current
token in reverse. -/
def splitWsAux : List Char → List Char → List String
  | [], acc => if acc.isEmpty then [] else [String.mk acc.reverse]
  | c :: cs, acc =>
    if c.isWhitespace then
      if acc.isEmpty then splitWsAux cs []
      else String.mk acc.reverse :: splitWsAux cs []
    else splitWsAux cs (c :: acc)

/-- Python `s.split()` (whitespace split, empty pieces dropped). -/
def wsTokens (s : String) : List String := splitWsAux s.data []

/-- Embedding of `_pre_normalize` (lines 126-138): map Arabic letterforms
to Persian, strip diacritics, strip zero-width marks, lowercase, replace
characters outside word/whitespace/Arabic-block classes with a space,
collapse whitespace (`" ".join(t.split())`). -/
def _pre_normalize (text : String) : String :=
  let cs := text.data.map arabicToPersianChar
  let cs := cs.filter (fun c => !(isArabicDiacritic c))
  let cs := cs.filter (fun c => !(isZeroWidthMark c))
  let cs := cs.map Char.toLower
  let cs := cs.map (fun c =>
    if isWordCharAscii c || c.isWhitespace || isArabicBlock c then c else ' ')
  String.intercalate " " (splitWsAux cs [])

/-- Stopword set `PERSIAN_STOPWORDS` (lines 112-119). -/
def PERSIAN_STOPWORDS : List String :=
  ["و", "در", "به", "از", "که", "این", "را", "با", "های",
   "برای", "آن", "یک", "هم", "تا", "اما", "یا", "بود",
   "شد", "است", "می", "هر", "اگر", "بر", "ها", "نیز",
   "کرد", "خود", "هیچ", "پس", "باید", "نه", "ما", "شود",
   "the", "a", "an", "is", "are", "was", "of", "in",
   "to", "for", "and", "or", "but", "with", "on"]

/-- Embedding of `_normalize_text` (lines 1236-1244): pre-normalize, then
keep tokens that are not stopwords and have length at least 2. -/
def _normalize_text (text : String) : String :=
  let t := _pre_normalize text
  let tokens := (wsTokens t).filter
    (fun tok => !(PERSIAN_STOPWORDS.contains tok) && decide (2 ≤ tok.length))
  String.intercalate " " tokens

/-! ## Lexicographic string sort (Python `sorted` on `str`) -/

/-- Lexicographic comparison of character lists by code point, the order
Python uses to compare strings. -/
def charListLe : List Char → List Char → Bool
  | [], _ => true
  | _ :: _, [] => false
  | a :: as, b :: bs =>
    if a.toNat < b.toNat then true
    else if a.toNat = b.toNat then charListLe as bs
    else false

/-- String comparison by code points (Python `<=` on `str`). -/
def strLe (a b : String) : Bool := charListLe a.data b.data

/-- Insert into a `strLe`-sorted list keeping it sorted. -/
def insertSorted (x : String) : List String → List String
  | [] => [x]
  | y :: ys => if strLe x y then x :: y :: ys else y :: insertSorted x ys

/-- Stable sort of a string list by code-point order (Python `sorted`). -/
def sortStrings (l : List String) : List String := l.foldr insertSorted []

/-! ## UTF-8 and SHA-256 (Python `hashlib.sha256(s.encode("utf-8"))`) -/

/-- UTF-8 encoding of one code point as a byte list. -/
def utf8Bytes (c : Char) : List Nat :=
  let n := c.toNat
  if n < 128 then [n]
  else if n < 2048 then
    [192 ||| (n >>> 6), 128 ||| (n &&& 63)]
  else if n < 65536 then
    [224 ||| (n >>> 12), 128 ||| ((n >>> 6) &&& 63), 128 ||| (n &&& 63)]
  else
    [240 ||| (n >>> 18), 128 ||| ((n >>> 12) &&& 63),
     128 ||| ((n >>> 6) &&& 63), 128 ||| (n &&& 63)]

/-- UTF-8 encoding of a string as a byte list. -/
def utf8Encode (s : String) : List Nat := s.data.flatMap utf8Bytes

/-- Truncate to 32 bits. -/
def w32 (n : Nat) : Nat := n % 4294967296

/-- 32-bit right rotation (argument assumed below `2^32`). -/
def rotr32 (n k : Nat) : Nat := w32 ((n >>> k) ||| (n <<< (32 - k)))

/-- SHA-256 round constants (FIPS 180-4, written in decimal). -/
def shaK : List Nat :=
  [1116352408, 1899447441, 3049323471, 3921009573, 961987163,
   1508970993, 2453635748, 2870763221, 3624381080, 310598401,
   607225278, 1426881987, 1925078388, 2162078206, 2614888103,
   3248222580, 3835390401, 4022224774, 264347078, 604807628,
   770255983, 1249150122, 1555081692, 1996064986, 2554220882,
   2821834349, 2952996808, 3210313671, 3336571891, 3584528711,
   113926993, 338241895, 666307205, 773529912, 1294757372,
   1396182291, 1695183700, 1986661051, 2177026350, 2456956037,
   2730485921, 2820302411, 3259730800, 3345764771, 3516065817,
   3600352804, 4094571909, 275423344, 430227734, 506948616,
   659060556, 883997877, 958139571, 1322822218, 1537002063,
   1747873779, 1955562222, 2024104815, 2227730452, 2361852424,
   2428436474, 2756734187, 3204031479, 3329325298]

/-- Working state of the SHA-256 compression function. -/
structure Sha8 where
  h0 : Nat
  h1 : Nat
  h2 : Nat
  h3 : Nat
  h4 : Nat
  h5 : Nat
  h6 : Nat
  h7 : Nat

/-- SHA-256 initial hash values (FIPS 180-4, written in decimal). -/
def shaInit : Sha8 :=
  ⟨1779033703, 3144134277, 1013904242, 2773480762,
   1359893119, 2600822924, 528734635, 1541459225⟩

/-- One SHA-256 round for round constant `kw.1` and schedule word `kw.2`. -/
def shaRound (st : Sha8) (kw : Nat × Nat) : Sha8 :=
  let s1 := (rotr32 st.h4 6) ^^^ (rotr32 st.h4 11) ^^^ (rotr32 st.h4 25)
  let ch := (st.h4 &&& st.h5) ^^^ ((4294967295 ^^^ st.h4) &&& st.h6)
  let temp1 := w32 (st.h7 + s1 + ch + kw.1 + kw.2)
  let s0 := (rotr32 st.h0 2) ^^^ (rotr32 st.h0 13) ^^^ (rotr32 st.h0 22)
  let maj := (st.h0 &&& st.h1) ^^^ (st.h0 &&& st.h2) ^^^ (st.h1 &&& st.h2)
  let temp2 := w32 (s0 + maj)
  ⟨w32 (temp1 + temp2), st.h0, st.h1, st.h2,
   w32 (st.h3 + temp1), st.h4, st.h5, st.h6⟩

/-- Big-endian 32-bit words from a byte list (length divisible by 4). -/
def bytesToWords : List Nat → List Nat
  | b0 :: b1 :: b2 :: b3 :: rest =>
    ((b0 <<< 24) ||| (b1 <<< 16) ||| (b2 <<< 8) ||| b3) :: bytesToWords rest
  | _ => []

/-- Message schedule: extend 16 words to 64. -/
def shaSchedule (w0 : List Nat) : List Nat :=
  (List.range 48).foldl (fun w i =>
    let x15 := w.getD (i + 1) 0
    let x2 := w.getD (i + 14) 0
    let s0 := (rotr32 x15 7) ^^^ (rotr32 x15 18) ^^^ (x15 >>> 3)
    let s1 := (rotr32 x2 17) ^^^ (rotr32 x2 19) ^^^ (x2 >>> 10)
    w ++ [w32 (w.getD i 0 + s0 + w.getD (i + 9) 0 + s1)]) w0

/-- Compression of one 64-byte block. -/
def shaCompress (hs : Sha8) (block : List Nat) : Sha8 :=
  let w := shaSchedule (bytesToWords block)
  let st := (shaK.zip w).foldl shaRound hs
  ⟨w32 (hs.h0 + st.h0), w32 (hs.h1 + st.h1), w32 (hs.h2 + st.h2),
   w32 (hs.h3 + st.h3), w32 (hs.h4 + st.h4), w32 (hs.h5 + st.h5),
   w32 (hs.h6 + st.h6), w32 (hs.h7 + st.h7)⟩

/-- SHA-256 padding: append `0x80`, zeros to 56 mod 64, then the bit
length as 8 big-endian bytes. -/
def padMsg (msg : List Nat) : List Nat :=
  let len := msg.length
  let padZeros := (119 - len % 64) % 64
  msg ++ (128 :: List.replicate padZeros 0) ++
    (List.range 8).map (fun i => ((len * 8) >>> (8 * (7 - i))) &&& 255)

/-- Fuel-indexed chunking of a byte list into 64-byte blocks. -/
def chunks64Aux : Nat → List Nat → List (List Nat)
  | 0, _ => []
  | _, [] => []
  | fuel + 1, l => l.take 64 :: chunks64Aux fuel (l.drop 64)

/-- Chunk a byte list into 64-byte blocks. -/
def chunks64 (l : List Nat) : List (List Nat) := chunks64Aux l.length l

/-- Lowercase hex digit of a value below 16. -/
def hexDigit (n : Nat) : Char :=
  Char.ofNat (if n < 10 then 48 + n else 87 + n)

/-- Lowercase hex string of a byte list (Python `hexdigest()`). -/
def toHexString (bytes : List Nat) : String :=
  String.mk (bytes.flatMap (fun b => [hexDigit (b / 16), hexDigit (b % 16)]))

/-- Big-endian bytes of a 32-bit word list. -/
def wordsToBytes (ws : List Nat) : List Nat :=
  ws.flatMap (fun wd =>
    [(wd >>> 24) &&& 255, (wd >>> 16) &&& 255, (wd >>> 8) &&& 255, wd &&& 255])

/-- SHA-256 hex digest of a byte list. -/
def sha256hex (msg : List Nat) : String :=
  let final := (chunks64 (padMsg msg)).foldl shaCompress shaInit
  toHexString (wordsToBytes
    [final.h0, final.h1, final.h2, final.h3,
     final.h4, final.h5, final.h6, final.h7])

/-- Embedding of `_make_hash` (lines 1247-1251): normalize the title with
stopword stripping, sort the tokens, join with single spaces, SHA-256 of
the UTF-8 bytes.  The `desc` parameter is unused, as in the source. -/
def _make_hash (title : String) (desc : String := "") : String :=
  let norm := _normalize_text title
  let tokens := sortStrings (wsTokens norm)
  let canonical := String.intercalate " " tokens
  sha256hex (utf8Encode canonical)

/-! ## Keyword system (src/main.py section 2)

A compiled pattern `(?:^|\s)kw(?:\s|$)` searched in the space-padded
normalized text matches exactly when the token list of the normalized
keyword occurs as a contiguous run inside the token list of the text
(keyword tokens and text tokens contain no spaces).  Keywords are
therefore compiled to their normalized token lists and matching is
contiguous-run containment. -/

/-- `startsWithRun kw ts` holds when `ts` begins with the token run `kw`. -/
def startsWithRun : List String → List String → Bool
  | [], _ => true
  | _ :: _, [] => false
  | k :: ks, t :: ts => k == t && startsWithRun ks ts

/-- `hasRun kw ts`: the token run `kw` occurs contiguously in `ts`.  This
is the word-boundary regex search of `_compile_wb` (lines 141-146) seen
at the token level. -/
def hasRun (kw : List String) : List String → Bool
  | [] => startsWithRun kw []
  | t :: ts => startsWithRun kw (t :: ts) || hasRun kw ts

/-- Compile one raw keyword: normalize it and split into tokens;
keywords that normalize to the empty string are dropped
(`_compile_wb` returning `None`). -/
def compileKw (raw : String) : Option (List String) :=
  let nk := _pre_normalize raw
  if nk = "" then none else some (wsTokens nk)

/-- A compiled scored keyword: token list, title points, description
points. -/
structure KwEntry where
  kw : List String
  tp : ℤ
  dp : ℤ
deriving DecidableEq

/-- Raw Layer-1 core election keywords `_RAW_LAYER1` (lines 151-194):
`(raw_keyword, title_points, desc_points)`. -/
def _RAW_LAYER1 : List (String × ℤ × ℤ) :=
  [("انتخابات", 4, 2),
   ("انتخاباتی", 4, 2),
   ("ریاست جمهوری", 4, 2),
   ("ریاستجمهوری", 4, 2),
   ("مجلس شورای اسلامی", 4, 2),
   ("نامزد انتخابات", 5, 3),
   ("نامزد انتخاباتی", 5, 3),
   ("کاندیدا", 4, 2),
   ("کاندیدای", 4, 2),
   ("داوطلب انتخابات", 5, 3),
   ("ثبتنام داوطلب", 5, 3),
   ("ثبتنام انتخابات", 5, 3),
   ("رد صلاحیت", 5, 3),
   ("تایید صلاحیت", 5, 3),
   ("احراز صلاحیت", 5, 3),
   ("بررسی صلاحیت", 4, 2),
   ("شورای نگهبان", 4, 2),
   ("هیئت نظارت", 4, 2),
   ("ستاد انتخابات", 4, 2),
   ("ستاد انتخاباتی", 4, 2),
   ("حوزه انتخابیه", 4, 2),
   ("تبلیغات انتخاباتی", 4, 2),
   ("صندوق رای", 4, 2),
   ("رایگیری", 4, 2),
   ("رای گیری", 4, 2),
   ("مشارکت انتخاباتی", 4, 2),
   ("دور دوم انتخابات", 5, 3),
   ("لیست انتخاباتی", 4, 2),
   ("ائتلاف انتخاباتی", 4, 2),
   ("شورای شهر", 3, 1),
   ("شورای اسلامی", 3, 1),
   ("شوراهای اسلامی", 3, 1),
   ("election", 4, 2),
   ("elections", 4, 2),
   ("electoral", 4, 2),
   ("candidate", 4, 2),
   ("ballot", 4, 2),
   ("voting", 4, 2),
   ("presidential", 4, 2),
   ("parliamentary", 4, 2),
   ("runoff", 4, 2),
   ("disqualification", 5, 3)]

/-- Raw Layer-2 contextual political keywords `_RAW_LAYER2`
(lines 197-224). -/
def _RAW_LAYER2 : List (String × ℤ × ℤ) :=
  [("نماینده مجلس", 2, 1),
   ("نمایندگان مجلس", 2, 1),
   ("فراکسیون", 2, 1),
   ("مناظره", 3, 1),
   ("مناظره انتخاباتی", 4, 2),
   ("وعده انتخاباتی", 4, 2),
   ("برنامه انتخاباتی", 4, 2),
   ("اگر انتخاب شوم", 5, 3),
   ("در صورت انتخاب", 5, 3),
   ("بیانیه انتخاباتی", 4, 2),
   ("اصلاحطلب", 2, 1),
   ("اصلاحطلبان", 2, 1),
   ("اصولگرا", 2, 1),
   ("اصولگرایان", 2, 1),
   ("حزب", 1, 0),
   ("جبهه", 1, 0),
   ("دولت آینده", 2, 1),
   ("مجلس آینده", 2, 1),
   ("رئیس جمهور", 2, 1),
   ("رئیسجمهور", 2, 1),
   ("نظرسنجی", 3, 2),
   ("نظرسنجی انتخاباتی", 4, 2),
   ("debate", 3, 1),
   ("polling", 3, 2),
   ("campaign", 2, 1),
   ("manifesto", 3, 2)]

/-- Rejection keywords `_RAW_REJECTION` (lines 227-234). -/
def _RAW_REJECTION : List String :=
  ["فیلم سینمایی", "سریال تلویزیونی", "بازیگر سینما",
   "لیگ برتر فوتبال", "جام جهانی فوتبال", "والیبال",
   "بیت کوین", "ارز دیجیتال", "رمزارز",
   "زلزله", "آتش سوزی", "تصادف رانندگی",
   "آشپزی", "رسپی غذا", "فال روز", "طالع بینی",
   "هواشناسی فردا"]

/-- Known candidate names `KNOWN_CANDIDATES` (lines 237-243). -/
def KNOWN_CANDIDATES : List String :=
  ["پزشکیان", "جلیلی", "قالیباف", "زاکانی",
   "لاریجانی", "روحانی", "احمدینژاد",
   "رضایی", "همتی", "مهرعلیزاده",
   "جهانگیری", "واعظی", "ظریف",
   "میرسلیم", "پورمحمدی"]

/-- Topic tag pattern groups `TOPIC_PATTERNS` (lines 246-255), in the
source's insertion order (Python dicts iterate in insertion order). -/
def TOPIC_PATTERNS : List (String × List String) :=
  [("صلاحیت", ["رد صلاحیت", "تایید صلاحیت", "احراز صلاحیت",
               "بررسی صلاحیت", "شورای نگهبان"]),
   ("ثبت‌نام", ["ثبتنام", "داوطلب انتخابات", "نامزد انتخابات"]),
   ("تبلیغات", ["تبلیغات انتخاباتی", "ستاد انتخاباتی", "مناظره"]),
   ("رای‌گیری", ["رایگیری", "رای گیری", "صندوق رای", "مشارکت انتخاباتی"]),
   ("نتایج", ["نتایج انتخابات", "شمارش آرا", "پیروز انتخابات"]),
   ("مجلس", ["مجلس شورای اسلامی", "نماینده مجلس", "نمایندگان مجلس"]),
   ("شورا", ["شورای شهر", "شورای اسلامی", "شوراهای اسلامی"])]

/-- `_compile_scored_list` (lines 281-287). -/
def _compile_scored_list (raw : List (String × ℤ × ℤ)) : List KwEntry :=
  raw.filterMap (fun e => (compileKw e.1).map (fun ks => ⟨ks, e.2.1, e.2.2⟩))

/-- `_compile_simple_list` (lines 289-295). -/
def _compile_simple_list (raw : List String) : List (List String) :=
  raw.filterMap compileKw

/-- Compiled Layer-1 patterns `LAYER1_COMPILED` (line 297). -/
def LAYER1_COMPILED : List KwEntry := _compile_scored_list _RAW_LAYER1

/-- Compiled Layer-2 patterns `LAYER2_COMPILED` (line 298). -/
def LAYER2_COMPILED : List KwEntry := _compile_scored_list _RAW_LAYER2

/-- Compiled rejection patterns `REJECTION_COMPILED` (line 299). -/
def REJECTION_COMPILED : List (List String) :=
  _compile_simple_list _RAW_REJECTION

/-- Compiled candidate patterns `CANDIDATE_PATTERNS` (lines 301-305):
pattern together with the raw name recorded on a match. -/
def CANDIDATE_PATTERNS : List (List String × String) :=
  KNOWN_CANDIDATES.filterMap (fun name =>
    (compileKw name).map (fun ks => (ks, name)))

/-- Compiled topic groups `TOPIC_COMPILED` (lines 307-315): groups whose
compiled pattern list is empty are dropped. -/
def TOPIC_COMPILED : List (String × List (List String)) :=
  TOPIC_PATTERNS.filterMap (fun e =>
    let compiled := _compile_simple_list e.2
    if compiled.isEmpty then none else some (e.1, compiled))

/-! ## Scoring engine (src/main.py `_score_article`, lines 865-932) -/

/-- Relevance tier. -/
inductive Tier where
  | HIGH
  | MEDIUM
  | LOW
deriving DecidableEq

/-- Score threshold `SCORE_HIGH` (default of `_env_int`, line 102). -/
def SCORE_HIGH : ℤ := 6

/-- Score threshold `SCORE_MEDIUM` (default of `_env_int`, line 103). -/
def SCORE_MEDIUM : ℤ := 3

/-- Result dictionary of `_score_article`. -/
structure ScoreResult where
  score : ℤ
  tier : Tier
  candidates : List String
  topics : List String
deriving DecidableEq

/-- Token list of the normalized text (the padded strings of the source
are searched by token runs, see `hasRun`). -/
def normTokens (s : String) : List String := wsTokens (_pre_normalize s)

/-- Tier from a score and the two thresholds (lines 919-925 of the
source, and the spec's `tier(score)` function). -/
def tierOf (score : ℤ) : Tier :=
  if SCORE_HIGH ≤ score then Tier.HIGH
  else if SCORE_MEDIUM ≤ score then Tier.MEDIUM
  else Tier.LOW

/-- Embedding of `_score_article` (lines 865-932).  `padded_t`,
`padded_d`, `padded_all` become the token lists of title, description
and their concatenation; regex search becomes `hasRun`. -/
def _score_article (title desc : String) : ScoreResult :=
  let tksT := normTokens title
  let tksD := normTokens desc
  let tksAll := tksT ++ tksD
  if REJECTION_COMPILED.any (fun pat => hasRun pat tksAll) then
    ⟨-1, Tier.LOW, [], []⟩
  else
    let score : ℤ := 0
    let score := LAYER1_COMPILED.foldl (fun acc e =>
      if hasRun e.kw tksT then acc + e.tp
      else if hasRun e.kw tksD then acc + e.dp
      else acc) score
    let score := LAYER2_COMPILED.foldl (fun acc e =>
      if hasRun e.kw tksT then acc + e.tp
      else if hasRun e.kw tksD then acc + e.dp
      else acc) score
    let cs : List String × ℤ := CANDIDATE_PATTERNS.foldl (fun cs e =>
      if hasRun e.1 tksAll then
        (cs.1 ++ [e.2], if hasRun e.1 tksT then cs.2 + 2 else cs.2 + 1)
      else cs) ([], score)
    let candidates := cs.1
    let score := cs.2
    let topics := TOPIC_COMPILED.foldl (fun topics e =>
      if e.2.any (fun pat => hasRun pat tksAll) then
        (if topics.contains e.1 then topics else topics ++ [e.1])
      else topics) []
    let score := if candidates ≠ [] ∧ SCORE_MEDIUM ≤ score
      then score + 2 else score
    let score := if 2 ≤ topics.length ∧ SCORE_MEDIUM ≤ score
      then score + 1 else score
    ⟨score, tierOf score, candidates, topics⟩

/-! ## Fuzzy dedup (src/main.py `_is_fuzzy_duplicate`, lines 1258-1277) -/

/-- Fuzzy similarity threshold `FUZZY_THRESHOLD` (default of
`_env_float`, line 96). -/
def FUZZY_THRESHOLD : ℚ := 11/20

/-- One record of the `fuzzy_records` list: raw title plus its
`_normalize_text` form. -/
structure FuzzyRec where
  title : String
  title_norm : String
deriving DecidableEq

/-- Token set of a normalized title (Python `set(s.split())`). -/
def fuzzyTokens (s : String) : Finset String := (wsTokens s).toFinset

/-- Body of the `for rec in records` loop of `_is_fuzzy_duplicate`: the
`continue` branches become `false`. -/
def fuzzyRecHit (incoming : Finset String) (rec : FuzzyRec) : Bool :=
  let stored := fuzzyTokens rec.title_norm
  if stored.card < 2 then false
  else
    let inter := (incoming ∩ stored).card
    if inter = 0 then false
    else
      let minSz := min incoming.card stored.card
      let overlap : ℚ := (inter : ℚ) / (minSz : ℚ)
      let union := (incoming ∪ stored).card
      let jaccard : ℚ := (inter : ℚ) / (union : ℚ)
      decide (3/4 ≤ overlap) || decide (FUZZY_THRESHOLD ≤ jaccard)

/-- Embedding of `_is_fuzzy_duplicate` (lines 1258-1277).  The source's
early-return loop is `List.any` over the records. -/
def _is_fuzzy_duplicate (title : String) (records : List FuzzyRec) : Bool :=
  if records.isEmpty then false
  else
    let incoming := fuzzyTokens (_normalize_text title)
    if incoming.card < 2 then false
    else records.any (fuzzyRecHit incoming)

/-- Overlap coefficient of two token sets: intersection size divided by
the smaller set size (spec §4.5). -/
def overlapCoeff (a b : Finset String) : ℚ :=
  ((a ∩ b).card : ℚ) / ((min a.card b.card : ℕ) : ℚ)

/-- Jaccard index of two token sets: intersection size divided by union
size (spec §4.5). -/
def jaccardIdx (a b : Finset String) : ℚ :=
  ((a ∩ b).card : ℚ) / (((a ∪ b).card : ℕ) : ℚ)

/-! ## Phase 3 — score, dedup, triage (src/main.py lines 543-630)

The loop body over `all_entries` becomes an explicit step function on a
state record.  `time_threshold` timestamps are integers (the code only
compares them); `source_reliability` is the map loaded in Phase 2,
read-only during Phase 3. -/

/-- One fetched feed entry (the `item` dict of the loop, minus the raw
feedparser payload, which phase 3 never inspects). -/
structure Entry where
  title : String
  link : String
  desc : String
  source : String
  feed_url : String
  pub_date : Option ℤ
deriving DecidableEq

/-- Read-only context of the phase 3 loop. -/
structure P3Ctx where
  time_threshold : ℤ
  source_reliability : String → Nat

/-- Queued article: the `enriched` dict (line 614), i.e. the entry plus
content hash and scoring annotations. -/
structure Enriched where
  title : String
  link : String
  desc : String
  source : String
  feed_url : String
  pub_date : Option ℤ
  content_hash : String
  score : ℤ
  tier : Tier
  candidates : List String
  topics : List String
deriving DecidableEq

/-- Mutable state of the phase 3 loop. -/
structure P3State where
  posted_hashes : Finset String
  known_hashes : Finset String
  known_links : Finset String
  fuzzy_records : List FuzzyRec
  queue : List Enriched
  skip_time : Nat
  skip_topic : Nat
  skip_dupe : Nat
  queued_high : Nat
  queued_medium : Nat
  queued_low : Nat

/-- Time filter `pub_date and pub_date < time_threshold` (line 558). -/
def timeSkip (ctx : P3Ctx) (e : Entry) : Bool :=
  match e.pub_date with
  | some d => decide (d < ctx.time_threshold)
  | none => false

/-- Score after the source-reliability boost (lines 569-572): trusted
sources (more than 10 history records) add 1 when the article already
reaches the medium threshold. -/
def effScore (ctx : P3Ctx) (e : Entry) : ℤ :=
  let r := _score_article e.title e.desc
  if 10 < ctx.source_reliability e.source ∧ SCORE_MEDIUM ≤ r.score then
    r.score + 1
  else r.score

/-- Tier re-evaluated after the boost (lines 574-578): upgraded from the
boosted score; left at the `_score_article` tier when below the medium
threshold. -/
def effTier (ctx : P3Ctx) (e : Entry) : Tier :=
  if SCORE_HIGH ≤ effScore ctx e then Tier.HIGH
  else if SCORE_MEDIUM ≤ effScore ctx e then Tier.MEDIUM
  else (_score_article e.title e.desc).tier

/-- The `enriched` dict appended to the publish queue (lines 614-621). -/
def enrich (ctx : P3Ctx) (e : Entry) : Enriched :=
  let r := _score_article e.title e.desc
  { title := e.title, link := e.link, desc := e.desc, source := e.source,
    feed_url := e.feed_url, pub_date := e.pub_date,
    content_hash := _make_hash e.title,
    score := effScore ctx e, tier := effTier ctx e,
    candidates := r.candidates, topics := r.topics }

/-- One iteration of the phase 3 loop (lines 550-630): time filter,
score, boost, tier gate, exact-hash dedup against this run's accepted
set and the loaded history, link dedup, fuzzy dedup; on acceptance the
hash and the normalized-title record are admitted before the next entry
is examined, and the entry is queued. -/
def step (ctx : P3Ctx) (s : P3State) (e : Entry) : P3State :=
  if timeSkip ctx e then { s with skip_time := s.skip_time + 1 }
  else if effTier ctx e = Tier.LOW then
    { s with skip_topic := s.skip_topic + 1, queued_low := s.queued_low + 1 }
  else if _make_hash e.title ∈ s.posted_hashes then
    { s with skip_dupe := s.skip_dupe + 1 }
  else if _make_hash e.title ∈ s.known_hashes then
    { s with skip_dupe := s.skip_dupe + 1 }
  else if e.link ∈ s.known_links then
    { s with skip_dupe := s.skip_dupe + 1 }
  else if _is_fuzzy_duplicate e.title s.fuzzy_records then
    { s with skip_dupe := s.skip_dupe + 1 }
  else
    { s with
      posted_hashes := insert (_make_hash e.title) s.posted_hashes,
      fuzzy_records := s.fuzzy_records ++
        [⟨e.title, _normalize_text e.title⟩],
      queue := s.queue ++ [enrich ctx e],
      queued_high :=
        if effTier ctx e = Tier.HIGH then s.queued_high + 1
        else s.queued_high,
      queued_medium :=
        if effTier ctx e = Tier.HIGH then s.queued_medium
        else s.queued_medium + 1 }

/-- The full phase 3 pass over the (already sorted) entry list. -/
def runPhase3 (ctx : P3Ctx) (s : P3State) (entries : List Entry) : P3State :=
  entries.foldl (step ctx) s

/-! ## Publisher (src/main.py `_publish_item_with_retry`, lines 939-1058)

Network calls are suspension points whose results come from an
environment: successive `_remaining()` readings are a stream of
rationals indexed by a counter, and the outcome of each DB/Telegram
call is an environment field.  The function's value is its boolean
result together with the ordered list of Telegram delivery calls it
performed (the claim under check is about which deliveries happen). -/

/-- Timing constants (defaults of `_env_int`, lines 80-82) as rationals
of seconds. -/
def DB_TIMEOUT : ℚ := 5

/-- Image scrape sub-budget default (line 81). -/
def IMAGE_SCRAPE_TIMEOUT : ℚ := 3

/-- Telegram sub-budget default (line 82). -/
def TELEGRAM_TIMEOUT : ℚ := 5

/-- Telegram post retry count default `TG_POST_MAX_RETRIES` (line 88). -/
def TG_POST_MAX_RETRIES : Nat := 2

/-- Outcome of the `db.save` call under `asyncio.wait_for`:
it may time out, be rejected (HTTP 409 / non-success / transport error,
i.e. `save` returned `False`), or succeed. -/
inductive SaveOutcome where
  | timedOut
  | rejected
  | saved
deriving DecidableEq

/-- Outcome of one `_post_to_telegram` attempt: returned `True`,
returned `False`, raised `RetryAfter r`, timed out, or raised a
`TelegramError`. -/
inductive TgOutcome where
  | ok
  | notOk
  | retryAfter (r : ℚ)
  | timedOut
  | tgError
deriving DecidableEq

/-- One Telegram delivery call made by the publisher: a
`_post_to_telegram` attempt, or the `_post_text_only` fallback. -/
inductive DeliveryCall where
  | tgPost (attempt : Nat)
  | textOnly
deriving DecidableEq

/-- Environment of one `_publish_item_with_retry` invocation: the
stream of `_remaining()` readings, the DB save outcome, whether the
item carries a raw feed entry, the image list the collector would
return (empty on collection timeout), the outcome of each Telegram
attempt and of the text-only fallback. -/
structure PublishEnv where
  rem : Nat → ℚ
  save : SaveOutcome
  hasEntry : Bool
  images : List String
  tg : Nat → TgOutcome
  fallbackOk : Bool

/-- The Telegram retry loop (lines 1005-1057).  `fuel` counts the
iterations left of `for attempt in range(TG_POST_MAX_RETRIES)`; `idx`
indexes the `_remaining()` stream; `calls` accumulates delivery calls.
Branches whose Python control flow falls through to the next loop
iteration recurse; loop exhaustion returns `False`. -/
def tgLoop (env : PublishEnv) (hasImages : Bool) :
    Nat → Nat → Nat → List DeliveryCall → Bool × List DeliveryCall
  | 0, _, _, calls => (false, calls)
  | fuel + 1, attempt, idx, calls =>
    let calls := calls ++ [DeliveryCall.tgPost attempt]
    match env.tg attempt with
    | TgOutcome.ok => (true, calls)
    | TgOutcome.notOk => tgLoop env hasImages fuel (attempt + 1) idx calls
    | TgOutcome.retryAfter r =>
      let wait := min r 3
      if wait + 3 < env.rem idx then
        tgLoop env hasImages fuel (attempt + 1) (idx + 1) calls
      else (false, calls)
    | TgOutcome.timedOut =>
      if attempt < TG_POST_MAX_RETRIES - 1 ∧ 4 < env.rem idx then
        tgLoop env hasImages fuel (attempt + 1) (idx + 1) calls
      else (false, calls)
    | TgOutcome.tgError =>
      if attempt = TG_POST_MAX_RETRIES - 1 ∧ hasImages then
        let calls := calls ++ [DeliveryCall.textOnly]
        if env.fallbackOk then (true, calls)
        else tgLoop env hasImages fuel (attempt + 1) (idx + 1) calls
      else if attempt < TG_POST_MAX_RETRIES - 1 then
        tgLoop env hasImages fuel (attempt + 1) (idx + 1) calls
      else tgLoop env hasImages fuel (attempt + 1) idx calls

/-- Embedding of `_publish_item_with_retry` (lines 939-1058): compute
the save budget from the first `_remaining()` reading and abandon the
item if it is under one second; attempt the history-store save and
abandon the item on timeout or rejection; only then collect images,
build the caption (pure, not modelled), and enter the Telegram retry
loop, provided its budget is at least two seconds. -/
def _publish_item_with_retry (env : PublishEnv) : Bool × List DeliveryCall :=
  let save_budget := min DB_TIMEOUT (env.rem 0 - 6)
  if save_budget < 1 then (false, [])
  else
    match env.save with
    | SaveOutcome.timedOut => (false, [])
    | SaveOutcome.rejected => (false, [])
    | SaveOutcome.saved =>
      let img_budget := min IMAGE_SCRAPE_TIMEOUT (env.rem 1 - 5)
      let image_urls :=
        if 1 < img_budget ∧ env.hasEntry then env.images else []
      let tg_budget := min TELEGRAM_TIMEOUT (env.rem 2 - 2)
      if tg_budget < 2 then (false, [])
      else tgLoop env (!image_urls.isEmpty) TG_POST_MAX_RETRIES 0 3 []

/-! ## Feed fetcher (src/main.py `_fetch_one_feed_retry`, lines 769-858)

Each attempt's network outcome comes from an environment stream.  The
function's value is the returned entry list (`none` models Python
`None`), the number of retry increments, and the list of backoff sleeps
performed. -/

/-- Retry attempt count `FEED_MAX_RETRIES` (default of `_env_int`,
line 86). -/
def FEED_MAX_RETRIES : Nat := 3

/-- Backoff base `FEED_RETRY_BASE_SEC` (default of `_env_float`,
line 87), in seconds. -/
def FEED_RETRY_BASE_SEC : ℚ := 3/10

/-- Outcome of one fetch attempt: HTTP 404, some other non-200 status,
a parse with bozo flag and no entries, a successful parse with the
given entries, a connection error, a request timeout, or an unexpected
exception. -/
inductive FetchOutcome (α : Type) where
  | notFound
  | httpErr
  | bozoEmpty
  | ok (entries : List α)
  | connError
  | timedOut
  | unexpected
deriving DecidableEq

/-- The outcomes the source retries on: non-200/non-404 status,
connection error, request timeout. -/
def FetchOutcome.transient {α : Type} : FetchOutcome α → Bool
  | FetchOutcome.httpErr => true
  | FetchOutcome.connError => true
  | FetchOutcome.timedOut => true
  | _ => false

/-- Result of `_fetch_one_feed_retry`: returned value, number of
`feeds_retry` increments, and backoff sleeps performed (seconds). -/
structure FetchResult (α : Type) where
  result : Option (List α)
  retries : Nat
  sleeps : List ℚ
deriving DecidableEq

/-- The `for attempt in range(FEED_MAX_RETRIES)` loop: 404, bozo and
successful parses return immediately; unexpected exceptions return
`None` immediately; transient outcomes sleep
`FEED_RETRY_BASE_SEC * 2 ^ attempt` and retry while attempts remain,
else return `None`. -/
def fetchLoop {α : Type} (env : Nat → FetchOutcome α) :
    Nat → Nat → Nat → List ℚ → FetchResult α
  | 0, _, r, sl => ⟨none, r, sl⟩
  | fuel + 1, attempt, r, sl =>
    match env attempt with
    | FetchOutcome.notFound => ⟨some [], r, sl⟩
    | FetchOutcome.bozoEmpty => ⟨some [], r, sl⟩
    | FetchOutcome.ok es => ⟨some es, r, sl⟩
    | FetchOutcome.unexpected => ⟨none, r, sl⟩
    | _ =>
      if attempt < FEED_MAX_RETRIES - 1 then
        fetchLoop env fuel (attempt + 1) (r + 1)
          (sl ++ [FEED_RETRY_BASE_SEC * 2 ^ attempt])
      else ⟨none, r, sl⟩

/-- Embedding of `_fetch_one_feed_retry` (lines 769-858) over an
attempt-outcome environment. -/
def _fetch_one_feed_retry {α : Type} (env : Nat → FetchOutcome α) :
    FetchResult α :=
  fetchLoop env FEED_MAX_RETRIES 0 0 []

/-- Backoff sleeps performed after `k` transient attempts:
`FEED_RETRY_BASE_SEC * 2 ^ j` for `j < k`. -/
def backoffs (k : Nat) : List ℚ :=
  (List.range k).map (fun j => FEED_RETRY_BASE_SEC * 2 ^ j)

/-! ## Derived notions used by the statements below -/

/-- Per-keyword score contribution of a scored pattern, as the spec
describes it: the title weight when the pattern matches the title,
else the description weight when it matches the description, else
nothing — never both weights. -/
def exclContrib (tksT tksD : List String) (e : KwEntry) : ℤ :=
  if hasRun e.kw tksT then e.tp
  else if hasRun e.kw tksD then e.dp
  else 0

/-- Per-candidate score contribution: 2 for a title match, 1 for a
match elsewhere in the combined text, 0 otherwise. -/
def candContrib (tksT tksAll : List String) (e : List String × String) : ℤ :=
  if hasRun e.1 tksAll then (if hasRun e.1 tksT then 2 else 1) else 0

/-- The rejection veto condition of `_score_article`: some rejection
pattern matches the combined normalized title+description. -/
def rejectionHit (title desc : String) : Bool :=
  REJECTION_COMPILED.any
    (fun pat => hasRun pat (normTokens title ++ normTokens desc))

/-- Acceptance condition of one phase 3 iteration: the entry survives
the time filter, the tier gate, both exact dedup sets, the link set and
the fuzzy comparison. -/
def acceptP (ctx : P3Ctx) (s : P3State) (e : Entry) : Prop :=
  timeSkip ctx e = false ∧
  effTier ctx e ≠ Tier.LOW ∧
  _make_hash e.title ∉ s.posted_hashes ∧
  _make_hash e.title ∉ s.known_hashes ∧
  e.link ∉ s.known_links ∧
  _is_fuzzy_duplicate e.title s.fuzzy_records = false

/-- `chainLe s s'`: `s'` is a later state of the same phase 3 pass —
the in-run dedup state only grows and the loaded history sets are
untouched. -/
def chainLe (s s' : P3State) : Prop :=
  s.posted_hashes ⊆ s'.posted_hashes ∧
  (∀ r ∈ s.fuzzy_records, r ∈ s'.fuzzy_records) ∧
  s'.known_hashes = s.known_hashes ∧
  s'.known_links = s.known_links

/-- Concrete phase 3 context: a trusted source (`11 > 10` history
records for every source name). -/
def trustedCtx : P3Ctx := ⟨0, fun _ => 11⟩

/-- Concrete entry used to exercise the source-reliability boost. -/
def boostEntry : Entry :=
  ⟨"انتخابات", "https://example.org/a", "", "Fars",
   "https://example.org/rss", none⟩

/-- Empty phase 3 state. -/
def emptyState : P3State := ⟨∅, ∅, ∅, [], [], 0, 0, 0, 0, 0, 0⟩

/-! ## Theorems -/

/-- C1: in `_publish_item_with_retry` the history-store save keyed by
the content fingerprint is attempted strictly before any Telegram
delivery; if the save budget is exhausted (below one second), or the
save times out, or the store rejects it (key conflict or any
non-success), the function returns `False` having performed no delivery
call to any platform. -/
theorem publish_save_gate (env : PublishEnv)
    (h : min DB_TIMEOUT (env.rem 0 - 6) < 1 ∨ env.save ≠ SaveOutcome.saved) :
    _publish_item_with_retry env = (false, []) := by
  unfold _publish_item_with_retry
  by_cases hb : min DB_TIMEOUT (env.rem 0 - 6) < 1
  · simp [hb]
  · simp only [if_neg hb]
    rcases h with h | h
    · exact absurd h hb
    · cases hs : env.save
      · rfl
      · rfl
      · exact absurd hs h

/-- Witness for C1: a concrete environment whose save is rejected
yields `False` and an empty delivery list. -/
theorem publish_save_gate_witness :
    _publish_item_with_retry
      ⟨fun _ => 30, SaveOutcome.rejected, true, ["https://example.org/i.jpg"],
       fun _ => TgOutcome.ok, true⟩ = (false, []) :=
  publish_save_gate _ (Or.inr (by decide))

/-- C2, counterexample: the claim quantifies over titles with equal
normalized token **sets**; a title with a repeated token has the same
token set as its deduplicated form but a different sorted token list,
hence a different SHA-256 fingerprint. -/
theorem make_hash_token_set_counterexample :
    (wsTokens (_normalize_text "election election")).toFinset
      = (wsTokens (_normalize_text "election")).toFinset
    ∧ _make_hash "election election" ≠ _make_hash "election" := by
  constructor
  · decide
  · decide

/-- C2, amended: for all titles whose normalized, stopword-stripped
token **lists sorted lexicographically** (equivalently, token
multisets) are equal, the fingerprints are equal; the fingerprint
depends only on the title, not the description. -/
theorem make_hash_sorted_tokens (t1 t2 d1 d2 : String)
    (h : sortStrings (wsTokens (_normalize_text t1))
       = sortStrings (wsTokens (_normalize_text t2))) :
    _make_hash t1 d1 = _make_hash t2 d2 := by
  simp only [_make_hash]
  rw [h]

/-- Witness for the amended C2: the spec's scenario-3 pair of reordered
Persian titles has equal sorted token lists and equal fingerprints. -/
theorem make_hash_sorted_tokens_witness :
    sortStrings (wsTokens (_normalize_text "مجلس شورای اسلامی رای داد"))
      = sortStrings (wsTokens (_normalize_text "رای داد مجلس شورای اسلامی"))
    ∧ _make_hash "مجلس شورای اسلامی رای داد"
      = _make_hash "رای داد مجلس شورای اسلامی" :=
  ⟨by decide, make_hash_sorted_tokens _ _ "" "" (by decide)⟩

/-- A scored-layer fold only ever adds the (non-negative) weight of the
matching side, so it is bounded below by its initial value. -/
lemma foldl_layer_le (tksT tksD : List String) :
    ∀ (l : List KwEntry) (init : ℤ), (∀ e ∈ l, 0 ≤ e.tp ∧ 0 ≤ e.dp) →
    init ≤ l.foldl (fun acc e =>
      if hasRun e.kw tksT then acc + e.tp
      else if hasRun e.kw tksD then acc + e.dp
      else acc) init := by
  intro l
  induction l with
  | nil => intro init _; exact le_refl _
  | cons e es ih =>
    intro init hw
    have he := hw e (by simp)
    have hes : ∀ x ∈ es, 0 ≤ x.tp ∧ 0 ≤ x.dp :=
      fun x hx => hw x (by simp [hx])
    simp only [List.foldl_cons]
    refine le_trans ?_ (ih _ hes)
    split_ifs <;> linarith [he.1, he.2]

/-- The candidate fold only ever adds 2 or 1 to its score component. -/
lemma foldl_cand_le (tksT tksAll : List String) :
    ∀ (l : List (List String × String)) (cs : List String × ℤ),
    cs.2 ≤ (l.foldl (fun cs e =>
      if hasRun e.1 tksAll then
        (cs.1 ++ [e.2], if hasRun e.1 tksT then cs.2 + 2 else cs.2 + 1)
      else cs) cs).2 := by
  intro l
  induction l with
  | nil => intro cs; exact le_refl _
  | cons e es ih =>
    intro cs
    simp only [List.foldl_cons]
    refine le_trans ?_ (ih _)
    split_ifs <;> simp

/-- C3: the tier in `_score_article`'s result is the pure threshold
function `tierOf` of the result's score, and whenever a rejection
pattern matches the combined normalized text the result is exactly
score -1, tier LOW, no candidates, no topics. -/
theorem score_tier_thresholds (title desc : String) :
    (_score_article title desc).tier = tierOf (_score_article title desc).score
    ∧ (rejectionHit title desc = true →
       _score_article title desc = ⟨-1, Tier.LOW, [], []⟩) := by
  unfold rejectionHit normTokens
  by_cases h : (REJECTION_COMPILED.any
      (fun pat => hasRun pat
        (wsTokens (_pre_normalize title) ++ wsTokens (_pre_normalize desc)))) = true
  · refine ⟨?_, fun _ => ?_⟩
    · simp only [_score_article, normTokens, h, if_true]
      decide
    · simp only [_score_article, normTokens, h, if_true]
  · have h' := Bool.not_eq_true _ |>.mp h
    constructor
    · simp only [_score_article, normTokens, h', Bool.false_eq_true, if_false]
    · intro hc
      rw [hc] at h'
      cases h'

/-- Witness for C3: a rejected title yields the veto result. -/
theorem score_tier_thresholds_witness :
    _score_article "فیلم سینمایی جدید" "" = ⟨-1, Tier.LOW, [], []⟩ :=
  (score_tier_thresholds "فیلم سینمایی جدید" "").2 (by decide)

/-- C10: `_score_article` returns score -1 exactly when a rejection
pattern matches the combined normalized text; otherwise the score is
non-negative, every added weight being non-negative. -/
theorem score_nonneg_unless_rejected (title desc : String) :
    ((_score_article title desc).score = -1 ↔ rejectionHit title desc = true)
    ∧ (rejectionHit title desc = false → 0 ≤ (_score_article title desc).score) := by
  unfold rejectionHit normTokens
  by_cases h : (REJECTION_COMPILED.any
      (fun pat => hasRun pat
        (wsTokens (_pre_normalize title) ++ wsTokens (_pre_normalize desc)))) = true
  · constructor
    · simp [_score_article, normTokens, h]
    · intro hc
      rw [hc] at h
      cases h
  · have h' := Bool.not_eq_true _ |>.mp h
    have hnn : 0 ≤ (_score_article title desc).score := by
      simp only [_score_article, normTokens, h', Bool.false_eq_true, if_false]
      have h1 := foldl_layer_le (wsTokens (_pre_normalize title))
        (wsTokens (_pre_normalize desc)) LAYER1_COMPILED 0 (by decide)
      have h2 := foldl_layer_le (wsTokens (_pre_normalize title))
        (wsTokens (_pre_normalize desc)) LAYER2_COMPILED
        (LAYER1_COMPILED.foldl (fun acc e =>
          if hasRun e.kw (wsTokens (_pre_normalize title)) then acc + e.tp
          else if hasRun e.kw (wsTokens (_pre_normalize desc)) then acc + e.dp
          else acc) 0) (by decide)
      have h3 := foldl_cand_le (wsTokens (_pre_normalize title))
        (wsTokens (_pre_normalize title) ++ wsTokens (_pre_normalize desc))
        CANDIDATE_PATTERNS
        ([], LAYER2_COMPILED.foldl (fun acc e =>
          if hasRun e.kw (wsTokens (_pre_normalize title)) then acc + e.tp
          else if hasRun e.kw (wsTokens (_pre_normalize desc)) then acc + e.dp
          else acc) (LAYER1_COMPILED.foldl (fun acc e =>
            if hasRun e.kw (wsTokens (_pre_normalize title)) then acc + e.tp
            else if hasRun e.kw (wsTokens (_pre_normalize desc)) then acc + e.dp
            else acc) 0))
      split_ifs <;> dsimp only at h3 ⊢ <;> linarith
    exact ⟨⟨fun hc => absurd hnn (by rw [hc]; decide), fun hc => absurd hc h⟩,
      fun _ => hnn⟩

/-- Witness for C10: a non-rejected relevant title has a non-negative
score (here 4), and a rejected one scores -1. -/
theorem score_nonneg_unless_rejected_witness :
    (0 : ℤ) ≤ (_score_article "انتخابات" "").score
    ∧ (_score_article "فیلم سینمایی" "").score = -1 :=
  ⟨(score_nonneg_unless_rejected "انتخابات" "").2 (by decide),
   (score_nonneg_unless_rejected "فیلم سینمایی" "").1.mpr (by decide)⟩

/-- A transient fetch outcome is a non-200/non-404 status, a connection
error or a request timeout. -/
lemma transient_cases {α : Type} {o : FetchOutcome α}
    (h : o.transient = true) :
    o = FetchOutcome.httpErr ∨ o = FetchOutcome.connError ∨
    o = FetchOutcome.timedOut := by
  cases o <;> simp [FetchOutcome.transient] at h ⊢

/-- C8: `_fetch_one_feed_retry` classifies failures as the spec says.
After `k` transient attempts (non-200 status, connection error or
timeout), each followed by a backoff sleep of
`FEED_RETRY_BASE_SEC * 2 ^ attempt`: an HTTP 404 returns an empty entry
list with no further retry; a malformed (bozo, entry-less) parse
returns an empty list with no further retry; a successful parse returns
its entries; and if all `FEED_MAX_RETRIES` attempts are transient the
function returns `None` after `FEED_MAX_RETRIES - 1` retries and
backoffs. -/
theorem fetch_retry_classes {α : Type} (env : Nat → FetchOutcome α) (k : Nat)
    (hk : k < FEED_MAX_RETRIES)
    (htrans : ∀ j, j < k → (env j).transient = true) :
    (env k = FetchOutcome.notFound →
      _fetch_one_feed_retry env = ⟨some [], k, backoffs k⟩)
    ∧ (env k = FetchOutcome.bozoEmpty →
      _fetch_one_feed_retry env = ⟨some [], k, backoffs k⟩)
    ∧ (∀ es, env k = FetchOutcome.ok es →
      _fetch_one_feed_retry env = ⟨some es, k, backoffs k⟩)
    ∧ ((∀ j, j < FEED_MAX_RETRIES → (env j).transient = true) →
      _fetch_one_feed_retry env
        = ⟨none, FEED_MAX_RETRIES - 1, backoffs (FEED_MAX_RETRIES - 1)⟩) := by
  have hk3 : k < 3 := hk
  have hex : (∀ j, j < FEED_MAX_RETRIES → (env j).transient = true) →
      _fetch_one_feed_retry env
        = ⟨none, FEED_MAX_RETRIES - 1, backoffs (FEED_MAX_RETRIES - 1)⟩ := by
    intro hall
    unfold _fetch_one_feed_retry
    rcases transient_cases (hall 0 (by norm_num [FEED_MAX_RETRIES]))
        with h0 | h0 | h0 <;>
      rcases transient_cases (hall 1 (by norm_num [FEED_MAX_RETRIES]))
        with h1 | h1 | h1 <;>
      rcases transient_cases (hall 2 (by norm_num [FEED_MAX_RETRIES]))
        with h2 | h2 | h2 <;>
      simp [fetchLoop, h0, h1, h2, FEED_MAX_RETRIES, backoffs,
        List.range_succ]
  interval_cases k
  · refine ⟨fun h => ?_, fun h => ?_, fun es h => ?_, hex⟩ <;>
      unfold _fetch_one_feed_retry <;>
      simp [fetchLoop, h, backoffs]
  · refine ⟨fun h => ?_, fun h => ?_, fun es h => ?_, hex⟩ <;>
      unfold _fetch_one_feed_retry <;>
      rcases transient_cases (htrans 0 (by norm_num)) with h0 | h0 | h0 <;>
      simp [fetchLoop, h0, h, FEED_MAX_RETRIES, backoffs, List.range_succ]
  · refine ⟨fun h => ?_, fun h => ?_, fun es h => ?_, hex⟩ <;>
      unfold _fetch_one_feed_retry <;>
      rcases transient_cases (htrans 0 (by norm_num)) with h0 | h0 | h0 <;>
      rcases transient_cases (htrans 1 (by norm_num)) with h1 | h1 | h1 <;>
      simp [fetchLoop, h0, h1, h, FEED_MAX_RETRIES, backoffs, List.range_succ]

/-- Witness for C8: one transient attempt (HTTP 500) followed by a
successful parse yields the parsed entries, one retry and one backoff
sleep. -/
theorem fetch_retry_classes_witness :
    _fetch_one_feed_retry
      (fun n => if n = 0 then FetchOutcome.httpErr else FetchOutcome.ok [7])
      = ⟨some [7], 1, backoffs 1⟩ :=
  (fetch_retry_classes
    (fun n => if n = 0 then FetchOutcome.httpErr else FetchOutcome.ok [7])
    1 (by norm_num [FEED_MAX_RETRIES])
    (fun j hj => by interval_cases j; rfl)).2.2.1 [7] rfl

/-- One fuzzy record hits exactly when its stored token set has at
least 2 elements and one of the two similarity metrics reaches its
threshold (an empty intersection makes both metrics zero, so the
source's `continue` on empty intersection changes nothing). -/
lemma fuzzyRecHit_iff (incoming : Finset String) (rec : FuzzyRec) :
    fuzzyRecHit incoming rec = true ↔
      2 ≤ (fuzzyTokens rec.title_norm).card ∧
        (3/4 ≤ overlapCoeff incoming (fuzzyTokens rec.title_norm) ∨
         FUZZY_THRESHOLD ≤ jaccardIdx incoming (fuzzyTokens rec.title_norm)) := by
  unfold fuzzyRecHit overlapCoeff jaccardIdx
  by_cases h2 : (fuzzyTokens rec.title_norm).card < 2
  · simp only [if_pos h2, Bool.false_eq_true, false_iff, not_and]
    intro hc
    omega
  · by_cases h0 : (incoming ∩ fuzzyTokens rec.title_norm).card = 0
    · simp only [if_neg h2, if_pos h0, h0, Nat.cast_zero, zero_div]
      norm_num [FUZZY_THRESHOLD]
    · simp only [if_neg h2, if_neg h0, Bool.or_eq_true, decide_eq_true_eq]
      have h2' : 2 ≤ (fuzzyTokens rec.title_norm).card := by omega
      tauto

/-- Characterization of `_is_fuzzy_duplicate`: true exactly when the
candidate's normalized token set has at least 2 elements and some
stored record with at least 2 normalized tokens reaches overlap 3/4 or
Jaccard `FUZZY_THRESHOLD` against it. -/
lemma fuzzy_dup_iff (title : String) (records : List FuzzyRec) :
    _is_fuzzy_duplicate title records = true ↔
      2 ≤ (fuzzyTokens (_normalize_text title)).card ∧
      ∃ rec ∈ records, 2 ≤ (fuzzyTokens rec.title_norm).card ∧
        (3/4 ≤ overlapCoeff (fuzzyTokens (_normalize_text title))
            (fuzzyTokens rec.title_norm) ∨
         FUZZY_THRESHOLD ≤ jaccardIdx (fuzzyTokens (_normalize_text title))
            (fuzzyTokens rec.title_norm)) := by
  unfold _is_fuzzy_duplicate
  by_cases he : records.isEmpty
  · rw [List.isEmpty_iff] at he
    subst he
    simp
  · by_cases h2 : (fuzzyTokens (_normalize_text title)).card < 2
    · simp only [he, Bool.false_eq_true, if_false, if_pos h2,
        false_iff, not_and]
      intro hc
      omega
    · have h2' : 2 ≤ (fuzzyTokens (_normalize_text title)).card := by omega
      simp only [he, Bool.false_eq_true, if_false, if_neg h2,
        List.any_eq_true, fuzzyRecHit_iff, h2', true_and]

/-- C4: `_is_fuzzy_duplicate` returns true iff some stored record's
normalized title token set reaches overlap coefficient 3/4 or Jaccard
index `FUZZY_THRESHOLD` against the candidate's normalized title token
set; candidates with fewer than 2 normalized tokens are never reported,
and stored records with fewer than 2 normalized tokens are ignored. -/
theorem fuzzy_duplicate_characterization (title : String)
    (records : List FuzzyRec) :
    _is_fuzzy_duplicate title records = true ↔
      2 ≤ (fuzzyTokens (_normalize_text title)).card ∧
      ∃ rec ∈ records, 2 ≤ (fuzzyTokens rec.title_norm).card ∧
        (3/4 ≤ overlapCoeff (fuzzyTokens (_normalize_text title))
            (fuzzyTokens rec.title_norm) ∨
         FUZZY_THRESHOLD ≤ jaccardIdx (fuzzyTokens (_normalize_text title))
            (fuzzyTokens rec.title_norm)) :=
  fuzzy_dup_iff title records

/-- C6, counterexample: with a trusted source (11 history records) the
queued item carries score 5 while `_score_article` returns 4 for the
same title and description — the boost of lines 569-572 mutates the
scoring annotation after the Scoring Engine created it. -/
theorem enrich_boost_counterexample :
    (step trustedCtx emptyState boostEntry).queue.map Enriched.score = [5]
    ∧ (_score_article boostEntry.title boostEntry.desc).score = 4 := by
  constructor
  · decide
  · decide

/-- C6, amended: a queued item's entities, topics and fingerprint are
exactly those produced by `_score_article` and `_make_hash`; its score
is the `_score_article` score plus 1 exactly when the source has more
than 10 history records and the score already reaches `SCORE_MEDIUM`;
its tier is recomputed from the boosted score, falling back to the
`_score_article` tier below the medium threshold; and the phase 3 step
either leaves the queue unchanged or appends exactly this item. -/
theorem enrich_annotations (ctx : P3Ctx) (s : P3State) (e : Entry) :
    ((step ctx s e).queue = s.queue ∨
      (step ctx s e).queue = s.queue ++ [enrich ctx e])
    ∧ (enrich ctx e).candidates = (_score_article e.title e.desc).candidates
    ∧ (enrich ctx e).topics = (_score_article e.title e.desc).topics
    ∧ (enrich ctx e).content_hash = _make_hash e.title
    ∧ (enrich ctx e).score =
        (if 10 < ctx.source_reliability e.source ∧
            SCORE_MEDIUM ≤ (_score_article e.title e.desc).score
         then (_score_article e.title e.desc).score + 1
         else (_score_article e.title e.desc).score)
    ∧ (enrich ctx e).tier =
        (if SCORE_HIGH ≤ (enrich ctx e).score then Tier.HIGH
         else if SCORE_MEDIUM ≤ (enrich ctx e).score then Tier.MEDIUM
         else (_score_article e.title e.desc).tier) := by
  refine ⟨?_, rfl, rfl, rfl, rfl, rfl⟩
  unfold step
  split_ifs <;> first
    | exact Or.inl rfl
    | exact Or.inr rfl

/-- A phase 3 step never touches the history sets loaded in phase 2. -/
lemma step_known_eq (ctx : P3Ctx) (s : P3State) (e : Entry) :
    (step ctx s e).known_hashes = s.known_hashes ∧
    (step ctx s e).known_links = s.known_links := by
  unfold step
  split_ifs <;> exact ⟨rfl, rfl⟩

/-- A phase 3 step only grows the in-run dedup state. -/
lemma step_chainLe (ctx : P3Ctx) (s : P3State) (e : Entry) :
    chainLe s (step ctx s e) := by
  unfold chainLe step
  split_ifs <;> refine ⟨?_, ?_, rfl, rfl⟩ <;> first
    | exact Finset.Subset.refl _
    | exact Finset.subset_insert _ _
    | exact fun r hr => hr
    | exact fun r hr => by simp [hr]

/-- `chainLe` is reflexive. -/
lemma chainLe_refl (s : P3State) : chainLe s s :=
  ⟨Finset.Subset.refl _, fun _ hr => hr, rfl, rfl⟩

/-- `chainLe` is transitive. -/
lemma chainLe_trans {a b c : P3State} (h1 : chainLe a b) (h2 : chainLe b c) :
    chainLe a c :=
  ⟨h1.1.trans h2.1, fun r hr => h2.2.1 r (h1.2.1 r hr),
   h2.2.2.1.trans h1.2.2.1, h2.2.2.2.trans h1.2.2.2⟩

/-- The whole phase 3 pass only grows the in-run dedup state. -/
lemma runPhase3_chainLe (ctx : P3Ctx) (s : P3State) (l : List Entry) :
    chainLe s (runPhase3 ctx s l) := by
  induction l generalizing s with
  | nil => exact chainLe_refl s
  | cons e es ih =>
    simp only [runPhase3, List.foldl_cons]
    exact chainLe_trans (step_chainLe ctx s e) (ih (step ctx s e))

/-- Fuzzy duplication is monotone in the record list. -/
lemma fuzzy_mono {title : String} {rs rs' : List FuzzyRec}
    (hsub : ∀ r ∈ rs, r ∈ rs')
    (h : _is_fuzzy_duplicate title rs = true) :
    _is_fuzzy_duplicate title rs' = true := by
  rw [fuzzy_dup_iff] at h ⊢
  obtain ⟨hc, rec, hrec, hp⟩ := h
  exact ⟨hc, rec, hsub rec hrec, hp⟩

/-- A rejected (non-accepted) phase 3 step only changes counters. -/
lemma step_skip_fields (ctx : P3Ctx) (s : P3State) (e : Entry)
    (h : ¬ acceptP ctx s e) :
    (step ctx s e).queue = s.queue ∧
    (step ctx s e).posted_hashes = s.posted_hashes ∧
    (step ctx s e).fuzzy_records = s.fuzzy_records := by
  unfold step
  split_ifs with h1 h2 h3 h4 h5 h6 h7 <;> first
    | exact ⟨rfl, rfl, rfl⟩
    | exact absurd ⟨by simpa using h1, h2, h3, h4, h5, by simpa using h6⟩ h

/-- An accepted phase 3 step admits the hash and the normalized-title
record and queues the enriched item, all in the same step. -/
lemma step_accept_fields (ctx : P3Ctx) (s : P3State) (e : Entry)
    (h : acceptP ctx s e) :
    (step ctx s e).queue = s.queue ++ [enrich ctx e] ∧
    (step ctx s e).posted_hashes
      = insert (_make_hash e.title) s.posted_hashes ∧
    (step ctx s e).fuzzy_records
      = s.fuzzy_records ++ [⟨e.title, _normalize_text e.title⟩] := by
  obtain ⟨h1, h2, h3, h4, h5, h6⟩ := h
  unfold step
  simp [h1, h2, h3, h4, h5, h6]

/-- Acceptance is antitone along a phase 3 run: an entry accepted by a
later state would have been accepted by any earlier state of the same
run. -/
lemma accept_antitone {ctx : P3Ctx} {s s' : P3State} {e : Entry}
    (hle : chainLe s s') (h : acceptP ctx s' e) : acceptP ctx s e := by
  obtain ⟨hp, hf, hkh, hkl⟩ := hle
  obtain ⟨h1, h2, h3, h4, h5, h6⟩ := h
  refine ⟨h1, h2, fun hc => h3 (hp hc),
    fun hc => h4 (hkh ▸ hc), fun hc => h5 (hkl ▸ hc), ?_⟩
  cases hfz : _is_fuzzy_duplicate e.title s.fuzzy_records
  · rfl
  · exact absurd (fuzzy_mono hf hfz) (by simp [h6])

/-- C5: a phase 3 step either leaves the queue unchanged or, on accept,
its very result already contains the entry's content hash in
`posted_hashes` and its normalized-title record in `fuzzy_records`
(admission before the next candidate); and after any further entries
are processed, a second occurrence of the same entry never enqueues
again. -/
theorem dedup_admission_idempotent (ctx : P3Ctx) (s : P3State) (e : Entry)
    (mid : List Entry) :
    ((step ctx s e).queue = s.queue ∨
      (_make_hash e.title ∈ (step ctx s e).posted_hashes ∧
       (⟨e.title, _normalize_text e.title⟩ : FuzzyRec)
         ∈ (step ctx s e).fuzzy_records))
    ∧ (step ctx (runPhase3 ctx (step ctx s e) mid) e).queue
        = (runPhase3 ctx (step ctx s e) mid).queue := by
  constructor
  · by_cases hA : acceptP ctx s e
    · obtain ⟨hq, hp, hf⟩ := step_accept_fields ctx s e hA
      right
      rw [hp, hf]
      exact ⟨Finset.mem_insert_self _ _, by simp⟩
    · exact Or.inl (step_skip_fields ctx s e hA).1
  · by_cases hA : acceptP ctx (runPhase3 ctx (step ctx s e) mid) e
    · exfalso
      have hle : chainLe (step ctx s e) (runPhase3 ctx (step ctx s e) mid) :=
        runPhase3_chainLe ctx (step ctx s e) mid
      by_cases hA0 : acceptP ctx s e
      · have hp := (step_accept_fields ctx s e hA0).2.1
        have hmem : _make_hash e.title ∈ (step ctx s e).posted_hashes := by
          rw [hp]
          exact Finset.mem_insert_self _ _
        exact hA.2.2.1 (hle.1 hmem)
      · have hf := step_skip_fields ctx s e hA0
        have hA1 : acceptP ctx (step ctx s e) e := accept_antitone hle hA
        obtain ⟨a1, a2, a3, a4, a5, a6⟩ := hA1
        refine hA0 ⟨a1, a2, ?_, ?_, ?_, ?_⟩
        · rw [← hf.2.1]
          exact a3
        · rw [← (step_known_eq ctx s e).1]
          exact a4
        · rw [← (step_known_eq ctx s e).2]
          exact a5
        · rw [← hf.2.2]
          exact a6
    · exact (step_skip_fields ctx _ e hA).1

/-- A scored-layer fold is its initial value plus the sum of exclusive
per-keyword contributions. -/
lemma foldl_layer_eq (tksT tksD : List String) :
    ∀ (l : List KwEntry) (init : ℤ),
    l.foldl (fun acc e =>
      if hasRun e.kw tksT then acc + e.tp
      else if hasRun e.kw tksD then acc + e.dp
      else acc) init = init + (l.map (exclContrib tksT tksD)).sum := by
  intro l
  induction l with
  | nil => intro init; simp
  | cons e es ih =>
    intro init
    simp only [List.foldl_cons, List.map_cons, List.sum_cons, ih]
    unfold exclContrib
    split_ifs <;> ring

/-- The candidate fold's score component is its initial value plus the
sum of per-candidate contributions. -/
lemma foldl_cand_eq (tksT tksAll : List String) :
    ∀ (l : List (List String × String)) (cs : List String × ℤ),
    (l.foldl (fun cs e =>
      if hasRun e.1 tksAll then
        (cs.1 ++ [e.2], if hasRun e.1 tksT then cs.2 + 2 else cs.2 + 1)
      else cs) cs).2 = cs.2 + (l.map (candContrib tksT tksAll)).sum := by
  intro l
  induction l with
  | nil => intro cs; simp
  | cons e es ih =>
    intro cs
    simp only [List.foldl_cons, List.map_cons, List.sum_cons, ih]
    unfold candContrib
    split_ifs <;> simp <;> ring

/-- Shape of the two sequential multi-signal boosts of `_score_article`
over an arbitrary base score `B`, candidate list `C` and topic list
`T`: applying them in sequence equals adding the two conditional
bonuses. -/
lemma boost_shape (B : ℤ) (C T : List String) :
    (if 2 ≤ T.length ∧
        SCORE_MEDIUM ≤ (if C ≠ [] ∧ SCORE_MEDIUM ≤ B then B + 2 else B)
     then (if C ≠ [] ∧ SCORE_MEDIUM ≤ B then B + 2 else B) + 1
     else (if C ≠ [] ∧ SCORE_MEDIUM ≤ B then B + 2 else B))
    = B + (if C ≠ [] ∧ SCORE_MEDIUM ≤ B then 2 else 0)
      + (if 2 ≤ T.length ∧
            SCORE_MEDIUM ≤ B + (if C ≠ [] ∧ SCORE_MEDIUM ≤ B then 2 else 0)
         then 1 else 0) := by
  by_cases h1 : C ≠ [] ∧ SCORE_MEDIUM ≤ B <;>
    simp [h1] <;> split_ifs <;> ring

/-- C7: outside the rejection veto, the score of `_score_article` is the
sum over all Layer-1 and Layer-2 keywords of their exclusive
contribution — the title weight if the pattern matches the title, else
the description weight if it matches the description, else nothing, so
no keyword ever contributes both weights — plus the candidate bonuses
and the two multi-signal boosts. -/
theorem score_exclusive_weights (title desc : String) :
    (_score_article title desc).score =
      (let tksT := normTokens title
       let tksD := normTokens desc
       let base :=
         (LAYER1_COMPILED.map (exclContrib tksT tksD)).sum
         + (LAYER2_COMPILED.map (exclContrib tksT tksD)).sum
         + (CANDIDATE_PATTERNS.map (candContrib tksT (tksT ++ tksD))).sum
       let b1 : ℤ :=
         if (_score_article title desc).candidates ≠ [] ∧
            SCORE_MEDIUM ≤ base then 2 else 0
       let b2 : ℤ :=
         if 2 ≤ (_score_article title desc).topics.length ∧
            SCORE_MEDIUM ≤ base + b1 then 1 else 0
       if rejectionHit title desc then -1 else base + b1 + b2) := by
  unfold rejectionHit normTokens
  by_cases h : (REJECTION_COMPILED.any
      (fun pat => hasRun pat
        (wsTokens (_pre_normalize title) ++ wsTokens (_pre_normalize desc)))) = true
  · simp [_score_article, normTokens, h]
  · have h' := Bool.not_eq_true _ |>.mp h
    simp only [_score_article, normTokens, h', Bool.false_eq_true, if_false]
    have hS : (CANDIDATE_PATTERNS.foldl (fun cs e =>
        if hasRun e.1 (wsTokens (_pre_normalize title)
            ++ wsTokens (_pre_normalize desc)) then
          (cs.1 ++ [e.2],
           if hasRun e.1 (wsTokens (_pre_normalize title)) then cs.2 + 2
           else cs.2 + 1)
        else cs)
        ([], LAYER2_COMPILED.foldl (fun acc e =>
          if hasRun e.kw (wsTokens (_pre_normalize title)) then acc + e.tp
          else if hasRun e.kw (wsTokens (_pre_normalize desc)) then acc + e.dp
          else acc) (LAYER1_COMPILED.foldl (fun acc e =>
            if hasRun e.kw (wsTokens (_pre_normalize title)) then acc + e.tp
            else if hasRun e.kw (wsTokens (_pre_normalize desc)) then acc + e.dp
            else acc) 0))).2
        = (LAYER1_COMPILED.map (exclContrib (wsTokens (_pre_normalize title))
            (wsTokens (_pre_normalize desc)))).sum
          + (LAYER2_COMPILED.map (exclContrib (wsTokens (_pre_normalize title))
            (wsTokens (_pre_normalize desc)))).sum
          + (CANDIDATE_PATTERNS.map (candContrib (wsTokens (_pre_normalize title))
            (wsTokens (_pre_normalize title)
              ++ wsTokens (_pre_normalize desc)))).sum := by
      rw [foldl_cand_eq, foldl_layer_eq, foldl_layer_eq]
      ring
    rw [hS]
    exact boost_shape _ _ _

end Candidatory
